import Mathlib

/-!
Verification development for the avito-messenger-monitor repository.

The definitions below are a shallow embedding of the monitoring service
(`PuppeteerService` in `puppeteer.service.ts`) and of the HTTP controller
(`app.controller.ts`).  Pure in-page computations (substring tests, the
phone-number patterns, the extraction passes, the dedup loop) are embedded
as Lean functions over an explicit DOM model; the stateful controller
(start / stop / status / poll tick) is embedded as explicit state passing
over a `SessionState` record.  Observations the service makes of the live
page (login outcome, authentication checks, navigation results) are
supplied as explicit environment parameters, since they originate outside
the program.
-/

/-! ## String utilities

JavaScript `String.prototype.includes` (substring containment). -/

/-- Substring containment on character lists: `charsInclude pat s` holds when
`pat` occurs contiguously inside `s`. -/
def charsInclude (pat : List Char) : List Char → Bool
  | [] => pat.isEmpty
  | c :: rest => List.isPrefixOf pat (c :: rest) || charsInclude pat rest

/-- Embedding of JavaScript `s.includes(pat)`. -/
def strIncludes (s pat : String) : Bool :=
  charsInclude pat.data s.data

/-- Whitespace trimming on both ends (JavaScript `String.prototype.trim`,
with the Unicode whitespace class approximated by `Char.isWhitespace`). -/
def jsTrim (s : String) : String :=
  String.mk (((s.data.dropWhile Char.isWhitespace).reverse.dropWhile
    Char.isWhitespace).reverse)

/-- Split on a separator character (JavaScript `String.prototype.split`
with a one-character separator). -/
def splitOnChar (sep : Char) : List Char → List (List Char)
  | [] => [[]]
  | c :: rest =>
      let r := splitOnChar sep rest
      if c == sep then [] :: r
      else
        match r with
        | [] => [[c]]
        | h :: t => (c :: h) :: t

/-- The last component of a split (JavaScript `text.split(sep).pop()`;
`split` always returns a non-empty array). -/
def lastSplitPiece (sep : Char) (s : String) : String :=
  String.mk ((splitOnChar sep s.data).getLastD [])

/-- Whitespace class used by the phone-pattern regexes (approximation of
JavaScript regex `\s` restricted to the characters that occur in practice). -/
def isJsWs (c : Char) : Bool :=
  c == ' ' || c == '\t' || c == '\n' || c == '\r'

/-! ## Phone-number extraction

Embedding of the `extractPhoneNumber` helper defined inside both
`page.evaluate` callbacks.  The four fixed regexes are represented as token
lists; the character classes of the optional tokens are disjoint from the
digit and literal tokens that follow them, so greedy matching without
backtracking coincides with the regex semantics. -/

/-- One token of a phone-number pattern. -/
inductive PhoneTok where
  /-- a literal character -/
  | lit (c : Char)
  /-- regex `\d` -/
  | digit
  /-- regex `\s?` -/
  | optWs
  /-- regex `[\s-]?` -/
  | optWsDash
deriving Repr, DecidableEq

/-- Match a token list at the head of a character list, returning the
matched characters and the remainder. -/
def matchToks : List PhoneTok → List Char → Option (List Char × List Char)
  | [], cs => some ([], cs)
  | PhoneTok.lit c :: ts, d :: rest =>
      if d == c then (matchToks ts rest).map (fun p => (d :: p.1, p.2)) else none
  | PhoneTok.digit :: ts, d :: rest =>
      if d.isDigit then (matchToks ts rest).map (fun p => (d :: p.1, p.2)) else none
  | PhoneTok.optWs :: ts, d :: rest =>
      if isJsWs d then (matchToks ts rest).map (fun p => (d :: p.1, p.2))
      else matchToks ts (d :: rest)
  | PhoneTok.optWsDash :: ts, d :: rest =>
      if isJsWs d || d == '-' then (matchToks ts rest).map (fun p => (d :: p.1, p.2))
      else matchToks ts (d :: rest)
  | PhoneTok.optWs :: ts, [] => matchToks ts []
  | PhoneTok.optWsDash :: ts, [] => matchToks ts []
  | _ :: _, [] => none

/-- Leftmost match of a pattern in a character list (JavaScript
`text.match(re)` followed by taking `match[0]`). -/
def findFirstMatch (toks : List PhoneTok) : List Char → Option (List Char)
  | [] => (matchToks toks []).map Prod.fst
  | c :: rest =>
      match matchToks toks (c :: rest) with
      | some p => some p.1
      | none => findFirstMatch toks rest

/-- regex `\+7\d{10}` -/
def phonePat1 : List PhoneTok :=
  [PhoneTok.lit '+', PhoneTok.lit '7'] ++ List.replicate 10 PhoneTok.digit

/-- regex `8\d{10}` -/
def phonePat2 : List PhoneTok :=
  [PhoneTok.lit '8'] ++ List.replicate 10 PhoneTok.digit

/-- regex `\+7\s?\(\d{3}\)\s?\d{3}[\s-]?\d{2}[\s-]?\d{2}` -/
def phonePat3 : List PhoneTok :=
  [PhoneTok.lit '+', PhoneTok.lit '7', PhoneTok.optWs, PhoneTok.lit '('] ++
    List.replicate 3 PhoneTok.digit ++ [PhoneTok.lit ')', PhoneTok.optWs] ++
    List.replicate 3 PhoneTok.digit ++ [PhoneTok.optWsDash] ++
    List.replicate 2 PhoneTok.digit ++ [PhoneTok.optWsDash] ++
    List.replicate 2 PhoneTok.digit

/-- regex `8\s?\(\d{3}\)\s?\d{3}[\s-]?\d{2}[\s-]?\d{2}` -/
def phonePat4 : List PhoneTok :=
  [PhoneTok.lit '8', PhoneTok.optWs, PhoneTok.lit '('] ++
    List.replicate 3 PhoneTok.digit ++ [PhoneTok.lit ')', PhoneTok.optWs] ++
    List.replicate 3 PhoneTok.digit ++ [PhoneTok.optWsDash] ++
    List.replicate 2 PhoneTok.digit ++ [PhoneTok.optWsDash] ++
    List.replicate 2 PhoneTok.digit

/-- Embedding of `extractPhoneNumber`: try the four patterns in order, and
for the first pattern that matches strip the whitespace from the match
(the `replace` of regex `\s` by the empty string). -/
def extractPhoneNumber (text : String) : Option String :=
  ([phonePat1, phonePat2, phonePat3, phonePat4].findSome?
      (fun p => findFirstMatch p text.data)).map
    (fun m => String.mk (m.filter (fun c => !(isJsWs c))))

/-! ## Messages and deduplication

`ExtractedMessage` is the record built by the extraction passes and handed
to `messagesService.addMessage`.  The dedup key and the per-message
processing loop are shared verbatim by `checkForNewMessages` and
`extractMessagesFromPage` in the source. -/

/-- Embedding of the message record pushed by the extraction passes and
consumed by `messagesService.addMessage`. -/
structure ExtractedMessage where
  id : String
  text : String
  sender : String
  phoneNumber : Option String
  timestamp : String
deriving Repr, DecidableEq

/-- Dedup key: `sender + "_" + text.substring(0, 100)`. -/
def messageKey (m : ExtractedMessage) : String :=
  m.sender ++ "_" ++ m.text.take 100

/-- The state threaded through the dedup loop: the `processedMessages` set
(a JavaScript `Set`, modelled as its insertion-ordered key list) together
with the ledger of messages forwarded to `messagesService.addMessage`. -/
structure DedupState where
  seenKeys : List String
  published : List ExtractedMessage
deriving Repr, DecidableEq

/-- One iteration of the dedup loop body:
`if (!processedMessages.has(key) && message.text.trim()) { add key; addMessage }`. -/
def processOne (s : DedupState) (m : ExtractedMessage) : DedupState :=
  if messageKey m ∉ s.seenKeys ∧ jsTrim m.text ≠ "" then
    { seenKeys := s.seenKeys ++ [messageKey m], published := s.published ++ [m] }
  else s

/-- The dedup loop over the messages produced by one extraction pass. -/
def processMessages (s : DedupState) (ms : List ExtractedMessage) : DedupState :=
  ms.foldl processOne s

/-- First message in a pass whose key is `k` and whose text is non-empty
after trimming: the only candidate the dedup loop can forward for `k`. -/
def firstNewPub (k : String) : List ExtractedMessage → Option ExtractedMessage
  | [] => none
  | m :: rest =>
      if messageKey m = k ∧ jsTrim m.text ≠ "" then some m else firstNewPub k rest

/-- The sub-list of a ledger consisting of the messages with dedup key `k`. -/
def pubsForKey (k : String) (l : List ExtractedMessage) : List ExtractedMessage :=
  l.filter (fun m => messageKey m == k)

/-! ## DOM model

The `page.evaluate` callbacks only look at attribute substrings, text
content, inner HTML and one level of descendant queries, so a document is
modelled as its URL, its body text and the flat list of its elements in
document order, each element carrying the consulted attributes and the
list of its descendants. -/

/-- The attributes of a DOM node consulted by the extraction passes. -/
structure DomNode where
  tag : String
  className : String
  textContent : String
  innerHTML : String
  href : String
  dataTestId : String
deriving Repr, DecidableEq

/-- An element together with its descendants (the scope of the nested
`chat.querySelectorAll` calls). -/
structure DomElement where
  node : DomNode
  descendants : List DomNode
deriving Repr, DecidableEq

/-- The rendered document as observed by one poll tick. -/
structure Document where
  url : String
  bodyText : String
  elements : List DomElement
deriving Repr, DecidableEq

/-- The hard-coded target correspondent names passed to both `evaluate`
callbacks. -/
def targetNames : List String := ["Рушан Натфуллин", "Рушан"]

/-- Model of `new Date().toISOString()` at abstract clock value `now`. -/
def isoTimestamp (now : Nat) : String := toString now

/-- The extraction gate of `checkForNewMessages`:
`url.includes('messenger') || url.includes('message') || url.includes('/profile/') || url.includes('/cabinet/')`. -/
def isOnMessengerPage (url : String) : Bool :=
  strIncludes url "messenger" || strIncludes url "message" ||
    strIncludes url "/profile/" || strIncludes url "/cabinet/"

/-- Selector `[class*="chat"], [class*="dialog"], [class*="conversation"]`. -/
def classMatchesChat (n : DomNode) : Bool :=
  strIncludes n.className "chat" || strIncludes n.className "dialog" ||
    strIncludes n.className "conversation"

/-- Messages extracted from one chat container by the structured pass of
the `checkForNewMessages` evaluate callback. -/
def chatMessages (names : List String) (now : Nat) (chat : DomElement) :
    List ExtractedMessage :=
  let chatText := chat.node.textContent
  let chatHtml := chat.node.innerHTML
  if names.any (fun nm => strIncludes chatText nm || strIncludes chatHtml nm) then
    let phone :=
      match extractPhoneNumber chatText with
      | some p => some p
      | none => extractPhoneNumber chatHtml
    let msgEls := chat.descendants.filter
      (fun el => strIncludes el.className "message" || strIncludes el.className "text")
    msgEls.enum.filterMap (fun p =>
      let messageText := jsTrim p.2.textContent
      if messageText != "" then
        some { id := chatText ++ "_" ++ toString p.1 ++ "_" ++ toString now,
               text := messageText,
               sender := ((names.find? (fun nm => strIncludes chatText nm)).getD "Unknown"),
               phoneNumber := phone,
               timestamp := isoTimestamp now }
      else none)
  else []

/-- The body-wide fallback pass of the `checkForNewMessages` evaluate
callback: if a target name occurs anywhere in the body text, every element
whose class mentions `message` is emitted. -/
def bodyPassMessages (names : List String) (now : Nat) (doc : Document) :
    List ExtractedMessage :=
  if names.any (fun nm => strIncludes doc.bodyText nm) then
    ((doc.elements.filter (fun e => strIncludes e.node.className "message")).enum).filterMap
      (fun p =>
        let text := jsTrim p.2.node.textContent
        if text != "" then
          some { id := "msg_" ++ toString p.1 ++ "_" ++ toString now,
                 text := text,
                 sender := ((names.find? (fun nm => strIncludes text nm)).getD "Рушан"),
                 phoneNumber := extractPhoneNumber text,
                 timestamp := isoTimestamp now }
        else none)
  else []

/-- All messages produced by the `checkForNewMessages` evaluate callback:
the structured chat pass followed by the body-wide fallback pass. -/
def checkEvalMessages (names : List String) (now : Nat) (doc : Document) :
    List ExtractedMessage :=
  (doc.elements.filter (fun c => classMatchesChat c.node)).flatMap (chatMessages names now) ++
    bodyPassMessages names now doc

/-- The chat-list preview pass of the `extractMessagesFromPage` evaluate
callback: for each of five selectors in turn, every matching element whose
text mentions a target name contributes the trimmed last line of its text,
provided it is non-empty and shorter than 500 characters. -/
def previewPassMessages (names : List String) (now rand : Nat) (doc : Document) :
    List ExtractedMessage :=
  let sels : List (DomElement → Bool) :=
    [fun e => e.node.tag == "a" && strIncludes e.node.href "/messenger",
     fun e => strIncludes e.node.className "chat-item",
     fun e => strIncludes e.node.className "conversation-item",
     fun e => strIncludes e.node.className "dialog-item",
     fun e => strIncludes e.node.dataTestId "chat"]
  sels.flatMap (fun sel =>
    (doc.elements.filter sel).filterMap (fun el =>
      let text := el.node.textContent
      if names.any (fun nm => strIncludes text nm) then
        let previewText := jsTrim (lastSplitPiece '\n' text)
        if previewText != "" && previewText.length < 500 then
          some { id := "preview_" ++ toString now ++ "_" ++ toString rand,
                 text := previewText,
                 sender := ((names.find? (fun nm => strIncludes text nm)).getD "Рушан"),
                 phoneNumber :=
                   (match extractPhoneNumber text with
                    | some p => some p
                    | none => extractPhoneNumber previewText),
                 timestamp := isoTimestamp now }
        else none
      else none))

/-- The open-conversation pass of the `extractMessagesFromPage` evaluate
callback: every element whose class mentions `message` or `Message`, with
trimmed text that is non-empty, shorter than 1000 characters and free of
the compose-prompt vocabulary, is emitted as a message from the default
sender. -/
def openChatMessages (now rand : Nat) (doc : Document) : List ExtractedMessage :=
  (doc.elements.filter (fun e =>
      strIncludes e.node.className "message" || strIncludes e.node.className "Message")).filterMap
    (fun container =>
      let text := jsTrim container.node.textContent
      if text != "" && text.length < 1000 then
        if !(strIncludes text "Написать") && !(strIncludes text "сообщение") then
          some { id := "msg_" ++ toString now ++ "_" ++ toString rand,
                 text := text,
                 sender := "Рушан",
                 phoneNumber := extractPhoneNumber text,
                 timestamp := isoTimestamp now }
        else none
      else none)

/-- Embedding of `extractMessagesFromPage`: run the preview and
open-conversation passes and feed their output through the dedup loop. -/
def extractMessagesFromPage (now rand : Nat) (doc : Document) (st : DedupState) :
    DedupState :=
  processMessages st
    (previewPassMessages targetNames now rand doc ++ openChatMessages now rand doc)

/-- Embedding of `checkForNewMessages`: the extraction gate, then the
structured pass through the dedup loop, then `extractMessagesFromPage`. -/
def checkForNewMessages (now rand : Nat) (doc : Document) (st : DedupState) :
    DedupState :=
  if isOnMessengerPage doc.url then
    extractMessagesFromPage now rand doc
      (processMessages st (checkEvalMessages targetNames now doc))
  else st

/-! ## Session state and controller operations

The mutable fields of `PuppeteerService`, with the browser and page
handles modelled by `browserOpen` and by `page` (the page handle carrying
its current URL, `none` when the handle is `null`). -/

/-- The mutable state of `PuppeteerService` together with the
`messagesService` ledger it publishes into. -/
structure SessionState where
  browserOpen : Bool
  page : Option String
  isRunning : Bool
  intervalActive : Bool
  dedup : DedupState
deriving Repr, DecidableEq

/-- The state at process start: no handles, nothing running, empty set. -/
def initialState : SessionState :=
  { browserOpen := false, page := none, isRunning := false,
    intervalActive := false, dedup := { seenKeys := [], published := [] } }

/-- Embedding of `cleanup`: close the browser and drop both handles, but
only when a browser handle is held. -/
def cleanup (s : SessionState) : SessionState :=
  if s.browserOpen then { s with browserOpen := false, page := none } else s

/-- Embedding of `stopMonitoring`: clear the running flag, cancel the poll
interval, clear `processedMessages`, then run `cleanup`. -/
def stopMonitoring (s : SessionState) : SessionState :=
  cleanup { s with isRunning := false, intervalActive := false,
                   dedup := { s.dedup with seenKeys := [] } }

/-- The record returned by `getStatus`. -/
structure Status where
  isRunning : Bool
  browserOpen : Bool
  currentUrl : Option String
  processedMessagesCount : Nat
deriving Repr, DecidableEq

/-- Embedding of `getStatus`: a point-in-time snapshot with no side
effects. -/
def getStatus (s : SessionState) : Status :=
  { isRunning := s.isRunning, browserOpen := s.browserOpen,
    currentUrl := s.page, processedMessagesCount := s.dedup.seenKeys.length }

/-- One firing of the `setInterval` callback installed by
`startMessageMonitoring`: skip when not running or the page handle is
gone, otherwise run `checkForNewMessages`. -/
def pollTick (now rand : Nat) (doc : Document) (s : SessionState) : SessionState :=
  if s.isRunning && s.page.isSome then
    { s with dedup := checkForNewMessages now rand doc s.dedup }
  else s

/-- Append one record to the `messagesService` ledger (`addMessage`). -/
def addMessageToLedger (s : SessionState) (m : ExtractedMessage) : SessionState :=
  { s with dedup := { s.dedup with published := s.dedup.published ++ [m] } }

/-- The synthetic system message published at the end of a successful
`startMonitoring`. -/
def systemReadyMessage (now : Nat) : ExtractedMessage :=
  { id := "system_ready_" ++ toString now,
    text := "✅ Мониторинг запущен и готов к работе! Ожидание сообщений от \x22Рушан\x22 или \x22Рушан Натфуллин\x22...",
    sender := "Система", phoneNumber := none, timestamp := isoTimestamp now }

/-- The synthetic system message published when the messenger view is
reached. -/
def messengerReadyMessage (now : Nat) : ExtractedMessage :=
  { id := "system_messenger_ready_" ++ toString now,
    text := "✅ Мессенджер открыт! Мониторинг активен и готов к работе.",
    sender := "Система", phoneNumber := none, timestamp := isoTimestamp now }

/-- Embedding of `navigateToMessenger` (best-effort, non-fatal): the link
search and direct-URL fallback are summarised by the observed outcome
`messengerOpened` and the final page URL; the messenger-ready system
message is published exactly under the condition of the source. -/
def navigateToMessenger (messengerOpened : Bool) (finalUrl : String) (now : Nat)
    (s : SessionState) : SessionState :=
  let s := { s with page := some finalUrl }
  if messengerOpened || strIncludes finalUrl "messenger" || strIncludes finalUrl "message" then
    addMessageToLedger s (messengerReadyMessage now)
  else s

/-! ## The manual-login wait loop

Embedding of the `while (!isLoggedIn && waitedTime < maxWaitTime)` loop of
`startMonitoring` (no credentials supplied): each iteration sleeps 5
seconds, bumps `waitedTime` and re-reads `checkIfLoggedIn()`.  The loop
condition and body consult only those two values; the iteration count is
bounded by `maxWaitTime / checkInterval = 60`. -/

/-- The wait loop with `fuel` iterations remaining and `waited` seconds
elapsed; `loggedInAt w` is the value `checkIfLoggedIn()` returns when read
after `w` seconds.  Returns the final `(isLoggedIn, waitedTime)`. -/
def manualWaitAux (loggedInAt : Nat → Bool) : Nat → Nat → Bool × Nat
  | 0, waited => (false, waited)
  | fuel + 1, waited =>
      if loggedInAt (waited + 5) then (true, waited + 5)
      else manualWaitAux loggedInAt fuel (waited + 5)

/-- The full manual-login wait: up to 300 seconds in 5-second steps. -/
def manualWait (loggedInAt : Nat → Bool) : Bool × Nat :=
  manualWaitAux loggedInAt 60 0

/-! ## start, login outcomes, and the HTTP controller -/

/-- The result contract of `login` and `startMonitoring`:
`{ requiresSms: boolean; error?: string }`. -/
structure LoginResult where
  requiresSms : Bool
  error : Option String
deriving Repr, DecidableEq

/-- The URL loaded by the initial navigation of `startMonitoring`. -/
def avitoUrl : String := "https://www.avito.ru"

/-- The URL of the login form opened when not yet authenticated. -/
def loginFormUrl : String := "https://www.avito.ru/#login?authsrc=h"

/-- The error message thrown when the manual-login wait times out. -/
def manualTimeoutMsg : String :=
  "Авторизация не выполнена в течение 5 минут. Пожалуйста, авторизуйтесь и попробуйте снова."

/-- The error message returned when a successful-looking automated login
is not confirmed by `checkIfLoggedIn`. -/
def loginNotConfirmedMsg : String := "Авторизация не подтверждена"

/-- The page-side observations `startMonitoring` makes during one run:
the outcome of `login()`, the results of the `checkIfLoggedIn()` probes,
the outcome of `navigateToMessenger`, the document seen by the initial
message check, and the clock values. -/
structure StartEnv where
  loginResult : LoginResult
  loggedInAfterLogin : Bool
  preLoggedIn : Bool
  manualLoggedInAt : Nat → Bool
  messengerOpened : Bool
  messengerUrl : String
  doc : Document
  now : Nat
  rand : Nat

/-- The state of the session at the moment monitoring begins on the
success path of `startMonitoring`: after `navigateToMessenger`, with the
running flag set and the poll interval installed, immediately before the
first message check runs. -/
def startRunningState (env : StartEnv) (s : SessionState) : SessionState :=
  let s := navigateToMessenger env.messengerOpened env.messengerUrl env.now s
  { s with isRunning := true, intervalActive := true }

/-- The tail of the success path of `startMonitoring`: mark running, start
the interval, run the initial `checkForNewMessages`, publish the ready
message, and return `{ requiresSms: false }`. -/
def startSuccess (env : StartEnv) (s : SessionState) : SessionState × Option LoginResult :=
  let s := startRunningState env s
  let s := { s with dedup := checkForNewMessages env.now env.rand env.doc s.dedup }
  let s := addMessageToLedger s (systemReadyMessage env.now)
  (s, some { requiresSms := false, error := none })

/-- Embedding of `startMonitoring(phone?, password?, smsCode?)`.

The already-running guard returns without a value (TypeScript `return;`),
modelled as `none`.  On the credential path, `login()`s outcome is
`env.loginResult`: an error outcome and a `requiresSms` outcome are both
returned directly (the early `return loginResult` statements, which skip
`cleanup`); a success outcome is re-checked via `checkIfLoggedIn` and
either confirmed (proceed to the success tail) or rejected with
`loginNotConfirmedMsg`.  (The later 120-second grace loop of the source is
unreachable on this path: it requires credentials together with an
unconfirmed login, which has already returned.)  On the manual path the
service opens the login form and runs the wait loop; a timeout throws,
which the surrounding catch turns into `cleanup` plus an error result. -/
def startMonitoring (phone password smsCode : Option String) (env : StartEnv)
    (s : SessionState) : SessionState × Option LoginResult :=
  if s.isRunning then (s, none)
  else
    let s := { s with browserOpen := true, page := some avitoUrl }
    match phone, password with
    | some _, some _ =>
        let lr := env.loginResult
        if lr.error.isSome then (s, some lr)
        else if lr.requiresSms then (s, some lr)
        else if env.loggedInAfterLogin then startSuccess env s
        else (s, some { requiresSms := false, error := some loginNotConfirmedMsg })
    | _, _ =>
        if env.preLoggedIn then startSuccess env s
        else
          let s := { s with page := some loginFormUrl }
          let r := manualWait env.manualLoggedInAt
          if r.1 then startSuccess env s
          else (cleanup s, some { requiresSms := false, error := some manualTimeoutMsg })

/-- The JSON body returned by the controller for `POST /start`. -/
structure StartResponse where
  success : Bool
  error : Option String
  requiresSms : Option Bool
  message : Option String
deriving Repr, DecidableEq

/-- Model of the runtime fault message raised when the controller reads
`.error` on the `undefined` returned by the already-running guard (a
TypeError of the Node runtime; the exact wording carries the property
name). -/
def typeErrorReadingError : String :=
  "Cannot read properties of undefined (reading error)"

/-- Embedding of `AppController.startMonitoring`: the service result is
dereferenced (`result.error`), so an `undefined` result raises a TypeError
that the surrounding catch converts into a failure response. -/
def controllerStart (result : Option LoginResult) : StartResponse :=
  match result with
  | none =>
      { success := false, error := some typeErrorReadingError,
        requiresSms := none, message := none }
  | some r =>
      match r.error with
      | some e => { success := false, error := some e,
                    requiresSms := some r.requiresSms, message := none }
      | none =>
          if r.requiresSms then
            { success := false, error := none, requiresSms := some true,
              message := some "Требуется SMS-код" }
          else
            { success := true, error := none, requiresSms := none,
              message := some "Monitoring started" }

/-- Embedding of `AppController.stopMonitoring`: `stopMonitoring` never
throws in the model, so the controller always answers success. -/
def controllerStop (s : SessionState) : SessionState × StartResponse :=
  (stopMonitoring s,
   { success := true, error := none, requiresSms := none,
     message := some "Monitoring stopped" })

/-! ## Login fragments

Embeddings of two self-contained steps of `login()`: the secret-entry
step and the one-time-code phase that follows the password submission. -/

/-- The consulted state of an `<input>` element: its `type` attribute and
its current value. -/
structure InputField where
  type : String
  value : String
deriving Repr, DecidableEq

/-- Embedding of the secret-entry step of `login()`: triple-click the
password input (selecting any existing content), type the password over
it, and then mutate the `type` attribute of the element to `text` via
`page.evaluate`. -/
def enterPassword (password : String) (field : InputField) : InputField :=
  let field := { field with value := password }
  { field with type := "text" }

/-- The vocabulary test deciding that a located input is the one-time-code
field (first detection):
`placeholder` mentions `код`, `code` or `Код`, or `data-marker` mentions
`code`, `sms`, `Code` or `SMS`. -/
def isSmsFieldFlag (placeholder dataMarker : String) : Bool :=
  strIncludes placeholder "код" || strIncludes placeholder "code" ||
    strIncludes placeholder "Код" || strIncludes dataMarker "code" ||
    strIncludes dataMarker "sms" || strIncludes dataMarker "Code" ||
    strIncludes dataMarker "SMS"

/-- The narrower vocabulary test used when re-checking after the code was
submitted. -/
def stillSmsFieldFlag (placeholderStill dataMarkerStill : String) : Bool :=
  strIncludes placeholderStill "код" || strIncludes placeholderStill "code" ||
    strIncludes dataMarkerStill "code" || strIncludes dataMarkerStill "sms"

/-- The error message returned when the submitted one-time code is judged
invalid. -/
def invalidSmsCodeMsg : String := "Неверный SMS-код. Введите код заново."

/-- The page observations consumed by the one-time-code phase of
`login()`. -/
structure SmsPhaseEnv where
  codeInputPresent : Bool
  placeholder : String
  dataMarker : String
  errorAfterSubmit : Option String
  loggedInAfterSms : Bool
  codeInputStillPresent : Bool
  placeholderStill : String
  dataMarkerStill : String
deriving Repr

/-- Embedding of the one-time-code phase of `login()` (the block that runs
after the password was submitted).  Returns the result `login` produces in
this phase (`none` when control falls through to the later checks of
`login`) together with the number of times a code was typed and submitted
during the phase.

When the code input is present and flagged: with no code supplied the
phase returns `requiresSms` without typing anything; with a code supplied
it types and submits the code exactly once, then returns the inline error
if one is detected, and otherwise, when `checkIfLoggedIn()` is still false
and the re-queried code input is still present and still flagged as a code
field, returns `requiresSms` together with `invalidSmsCodeMsg`. -/
def loginSmsPhase (smsCode : Option String) (env : SmsPhaseEnv) :
    Option LoginResult × Nat :=
  if env.codeInputPresent then
    if isSmsFieldFlag env.placeholder env.dataMarker then
      match smsCode with
      | some _ =>
          match env.errorAfterSubmit with
          | some e => (some { requiresSms := true, error := some e }, 1)
          | none =>
              if !env.loggedInAfterSms then
                if env.codeInputStillPresent &&
                    stillSmsFieldFlag env.placeholderStill env.dataMarkerStill then
                  (some { requiresSms := true, error := some invalidSmsCodeMsg }, 1)
                else (none, 1)
              else (none, 1)
      | none => (some { requiresSms := true, error := none }, 0)
    else (none, 0)
  else (none, 0)

/-! ## Concrete fixtures for the closed instances below -/

/-- A concrete extracted message with the given sender and text. -/
def mkMsg (sender text : String) : ExtractedMessage :=
  { id := "id0", text := text, sender := sender, phoneNumber := none,
    timestamp := "t0" }

/-- A 101-character text: one hundred times the letter a, then the given
character. -/
def longText (c : Char) : String :=
  String.mk (List.replicate 100 'a') ++ String.mk [c]

/-- A session in which monitoring is live. -/
def runningState : SessionState :=
  { browserOpen := true, page := some "https://www.avito.ru/profile/messenger",
    isRunning := true, intervalActive := true,
    dedup := { seenKeys := [], published := [] } }

/-- A document whose URL carries no messaging-context marker even though
its body mentions the target correspondent and a message-like element is
present. -/
def offContextDoc : Document :=
  { url := "https://www.avito.ru/moskva/telefony",
    bodyText := "Объявления продавца Рушан Натфуллин",
    elements := [{ node := { tag := "div", className := "message-bubble",
                             textContent := "Рушан: привет", innerHTML := "",
                             href := "", dataTestId := "" },
                   descendants := [] }] }

/-- A start environment in which the automated login fails with an
explicit error. -/
def failedLoginEnv : StartEnv :=
  { loginResult := { requiresSms := false, error := some "Неверный логин или пароль" },
    loggedInAfterLogin := false, preLoggedIn := false,
    manualLoggedInAt := fun _ => false,
    messengerOpened := false, messengerUrl := avitoUrl,
    doc := offContextDoc, now := 0, rand := 0 }

/-- A one-time-code phase environment in which the submitted code is
rejected: no inline error, the login probe still fails, and the re-queried
code input is still present and still flagged as a code field. -/
def invalidCodeEnv : SmsPhaseEnv :=
  { codeInputPresent := true, placeholder := "Введите код из SMS",
    dataMarker := "login-form/code/input",
    errorAfterSubmit := none, loggedInAfterSms := false,
    codeInputStillPresent := true, placeholderStill := "Введите код из SMS",
    dataMarkerStill := "login-form/code/input" }

/-! ## Lemmas about the dedup loop -/

set_option maxRecDepth 10000

theorem processMessages_nil (s : DedupState) : processMessages s [] = s := rfl

theorem processMessages_cons (s : DedupState) (m : ExtractedMessage)
    (ms : List ExtractedMessage) :
    processMessages s (m :: ms) = processMessages (processOne s m) ms := rfl

theorem firstNewPub_nil (k : String) : firstNewPub k [] = none := rfl

theorem firstNewPub_cons (k : String) (m : ExtractedMessage)
    (ms : List ExtractedMessage) :
    firstNewPub k (m :: ms) =
      if messageKey m = k ∧ jsTrim m.text ≠ "" then some m else firstNewPub k ms := rfl

theorem processOne_fresh (s : DedupState) (m : ExtractedMessage)
    (h : messageKey m ∉ s.seenKeys ∧ jsTrim m.text ≠ "") :
    processOne s m =
      { seenKeys := s.seenKeys ++ [messageKey m], published := s.published ++ [m] } := by
  unfold processOne
  exact if_pos h

theorem processOne_stale (s : DedupState) (m : ExtractedMessage)
    (h : ¬(messageKey m ∉ s.seenKeys ∧ jsTrim m.text ≠ "")) :
    processOne s m = s := by
  unfold processOne
  exact if_neg h

theorem processOne_seen_grows (s : DedupState) (m : ExtractedMessage) :
    s.seenKeys <+: (processOne s m).seenKeys := by
  by_cases h : messageKey m ∉ s.seenKeys ∧ jsTrim m.text ≠ ""
  · rw [processOne_fresh s m h]
    exact ⟨[messageKey m], rfl⟩
  · rw [processOne_stale s m h]

theorem processMessages_seen_grows (s : DedupState) (ms : List ExtractedMessage) :
    s.seenKeys <+: (processMessages s ms).seenKeys := by
  induction ms generalizing s with
  | nil => exact List.prefix_refl _
  | cons m rest ih =>
      rw [processMessages_cons]
      exact (processOne_seen_grows s m).trans (ih (processOne s m))

theorem pubsForKey_append (k : String) (l1 l2 : List ExtractedMessage) :
    pubsForKey k (l1 ++ l2) = pubsForKey k l1 ++ pubsForKey k l2 := by
  simp [pubsForKey, List.filter_append]

theorem pubsForKey_single_eq (m : ExtractedMessage) :
    pubsForKey (messageKey m) [m] = [m] := by
  simp [pubsForKey]

theorem pubsForKey_single_ne (k : String) (m : ExtractedMessage)
    (h : messageKey m ≠ k) : pubsForKey k [m] = [] := by
  simp [pubsForKey, h]

/-- The ledger entries with key `k` added by one run of the dedup loop:
nothing when `k` is already seen, otherwise exactly the first occurrence
with key `k` and non-empty trimmed text, if any. -/
theorem processMessages_pubsForKey (k : String) (ms : List ExtractedMessage)
    (s : DedupState) :
    pubsForKey k (processMessages s ms).published =
      pubsForKey k s.published ++
        (if k ∈ s.seenKeys then [] else (firstNewPub k ms).toList) := by
  induction ms generalizing s with
  | nil => simp [processMessages_nil, firstNewPub_nil]
  | cons m rest ih =>
      rw [processMessages_cons]
      by_cases hfresh : messageKey m ∉ s.seenKeys ∧ jsTrim m.text ≠ ""
      · rw [processOne_fresh s m hfresh, ih]
        dsimp only
        by_cases hk : messageKey m = k
        · subst hk
          have h1 : messageKey m ∈ s.seenKeys ++ [messageKey m] := by simp
          have hfn : firstNewPub (messageKey m) (m :: rest) = some m := by
            rw [firstNewPub_cons, if_pos ⟨rfl, hfresh.2⟩]
          rw [if_pos h1, if_neg hfresh.1, hfn, pubsForKey_append, pubsForKey_single_eq]
          simp
        · have hfn : firstNewPub k (m :: rest) = firstNewPub k rest := by
            rw [firstNewPub_cons, if_neg (fun hc => hk hc.1)]
          rw [pubsForKey_append, pubsForKey_single_ne k m hk, List.append_nil, hfn]
          by_cases hks : k ∈ s.seenKeys
          · have h2 : k ∈ s.seenKeys ++ [messageKey m] := by simp [hks]
            rw [if_pos hks, if_pos h2]
          · have h2 : k ∉ s.seenKeys ++ [messageKey m] := by
              simp only [List.mem_append, List.mem_singleton]
              rintro (h | h)
              · exact hks h
              · exact hk h.symm
            rw [if_neg hks, if_neg h2]
      · rw [processOne_stale s m hfresh, ih]
        by_cases hc : messageKey m = k ∧ jsTrim m.text ≠ ""
        · have hks : k ∈ s.seenKeys := by
            rcases not_and_or.mp hfresh with h | h
            · rw [← hc.1]; exact not_not.mp h
            · exact absurd hc.2 h
          rw [if_pos hks, if_pos hks]
        · have hfn : firstNewPub k (m :: rest) = firstNewPub k rest := by
            rw [firstNewPub_cons, if_neg hc]
          rw [hfn]

/-- After one run of the dedup loop, `k` is a seen key iff it was already
seen or the pass contained a message with key `k` and non-empty trimmed
text. -/
theorem processMessages_seen_mem (k : String) (ms : List ExtractedMessage)
    (s : DedupState) :
    k ∈ (processMessages s ms).seenKeys ↔
      (k ∈ s.seenKeys ∨ (firstNewPub k ms).isSome) := by
  induction ms generalizing s with
  | nil => simp [processMessages_nil, firstNewPub_nil]
  | cons m rest ih =>
      rw [processMessages_cons]
      by_cases hfresh : messageKey m ∉ s.seenKeys ∧ jsTrim m.text ≠ ""
      · rw [ih]
        rw [processOne_fresh s m hfresh]
        dsimp only
        by_cases hk : messageKey m = k
        · subst hk
          have hfn : firstNewPub (messageKey m) (m :: rest) = some m := by
            rw [firstNewPub_cons, if_pos ⟨rfl, hfresh.2⟩]
          rw [hfn]
          simp
        · have hfn : firstNewPub k (m :: rest) = firstNewPub k rest := by
            rw [firstNewPub_cons, if_neg (fun hc => hk hc.1)]
          rw [hfn]
          simp only [List.mem_append, List.mem_singleton]
          constructor
          · rintro (⟨h | h⟩ | h)
            · exact Or.inl h
            · exact absurd h.symm hk
            · exact Or.inr h
          · rintro (h | h)
            · exact Or.inl (Or.inl h)
            · exact Or.inr h
      · rw [processOne_stale s m hfresh, ih]
        by_cases hc : messageKey m = k ∧ jsTrim m.text ≠ ""
        · have hks : k ∈ s.seenKeys := by
            rcases not_and_or.mp hfresh with h | h
            · rw [← hc.1]; exact not_not.mp h
            · exact absurd hc.2 h
          have hfn : firstNewPub k (m :: rest) = some m := by
            rw [firstNewPub_cons, if_pos hc]
          rw [hfn]
          simp [hks]
        · have hfn : firstNewPub k (m :: rest) = firstNewPub k rest := by
            rw [firstNewPub_cons, if_neg hc]
          rw [hfn]

/-! ## Further helper lemmas -/

theorem checkForNewMessages_seen_grows (now rand : Nat) (doc : Document)
    (st : DedupState) :
    st.seenKeys <+: (checkForNewMessages now rand doc st).seenKeys := by
  unfold checkForNewMessages extractMessagesFromPage
  split
  · exact (processMessages_seen_grows _ _).trans (processMessages_seen_grows _ _)
  · exact List.prefix_refl _

theorem checkForNewMessages_gate_closed (now rand : Nat) (doc : Document)
    (st : DedupState) (hgate : isOnMessengerPage doc.url = false) :
    checkForNewMessages now rand doc st = st := by
  unfold checkForNewMessages
  rw [hgate]
  simp

/-! ## Claim theorems -/

/-- C1: at-most-once forwarding.  For a running session state whose seen
set does not yet contain the dedup key `k`, and a sequence `ms` of
extracted messages (the concatenated yields of any number of extraction
passes, all threaded through the shared dedup loop), if the sequence
contains an occurrence of key `k` with non-empty trimmed text then exactly
one `addMessage` call occurs for `k`: the ledger entries with key `k` grow
by exactly the first such occurrence `m0`, `k` is inserted into
`seenKeys`, and every later occurrence with key `k` is dropped. -/
theorem at_most_once_forwarding (s : DedupState) (ms : List ExtractedMessage)
    (k : String) (m0 : ExtractedMessage)
    (hk : k ∉ s.seenKeys)
    (hfind : firstNewPub k ms = some m0) :
    pubsForKey k (processMessages s ms).published =
        pubsForKey k s.published ++ [m0] ∧
      k ∈ (processMessages s ms).seenKeys := by
  constructor
  · rw [processMessages_pubsForKey, if_neg hk, hfind]
    rfl
  · rw [processMessages_seen_mem, hfind]
    exact Or.inr rfl

theorem at_most_once_forwarding_witness :
    ("Рушан_привет" ∉ (DedupState.mk [] []).seenKeys) ∧
    firstNewPub "Рушан_привет" [mkMsg "Рушан" "привет", mkMsg "Рушан" "привет"] =
        some (mkMsg "Рушан" "привет") ∧
    (pubsForKey "Рушан_привет"
        (processMessages (DedupState.mk [] [])
          [mkMsg "Рушан" "привет", mkMsg "Рушан" "привет"]).published =
      pubsForKey "Рушан_привет" (DedupState.mk [] []).published ++
        [mkMsg "Рушан" "привет"] ∧
      "Рушан_привет" ∈ (processMessages (DedupState.mk [] [])
          [mkMsg "Рушан" "привет", mkMsg "Рушан" "привет"]).seenKeys) :=
  ⟨by decide, by decide, at_most_once_forwarding _ _ _ _ (by decide) (by decide)⟩

/-- C2 counterexample: with a start environment in which the login state
machine terminates in `Failed` (an explicit error outcome), the embedded
`startMonitoring` returns the failure result and leaves `isRunning`
false, but the browser handle opened at the beginning of the call is
still open afterwards — the claimed full teardown does not happen,
because the early `return loginResult` skips `cleanup`. -/
theorem start_login_failed_counterexample :
    (startMonitoring (some "79990001122") (some "secret") none failedLoginEnv
        initialState).2 =
      some { requiresSms := false, error := some "Неверный логин или пароль" } ∧
    (startMonitoring (some "79990001122") (some "secret") none failedLoginEnv
        initialState).1.isRunning = false ∧
    (startMonitoring (some "79990001122") (some "secret") none failedLoginEnv
        initialState).1.browserOpen = true := by
  refine ⟨rfl, rfl, rfl⟩

/-- C2 (amended): for every invocation of `startMonitoring` with
credentials in which the login state machine terminates in `Failed`,
startup is aborted and the failure result is returned with `isRunning`
still false, the poll loop not started and the dedup state untouched, but
no teardown runs: the freshly launched browser and page handles remain
open (the early return skips `cleanup`, which runs only when an exception
is thrown). -/
theorem start_login_failed_no_teardown (phone pw : String) (smsCode : Option String)
    (env : StartEnv) (s : SessionState) (e : String)
    (hrun : s.isRunning = false)
    (herr : env.loginResult.error = some e) :
    startMonitoring (some phone) (some pw) smsCode env s =
      ({ s with browserOpen := true, page := some avitoUrl },
       some env.loginResult) := by
  unfold startMonitoring
  rw [hrun]
  simp [herr]

theorem start_login_failed_no_teardown_witness :
    initialState.isRunning = false ∧
    failedLoginEnv.loginResult.error = some "Неверный логин или пароль" ∧
    startMonitoring (some "79990001122") (some "secret") none failedLoginEnv
        initialState =
      ({ initialState with browserOpen := true, page := some avitoUrl },
       some failedLoginEnv.loginResult) :=
  ⟨rfl, rfl, start_login_failed_no_teardown _ _ _ _ _ _ rfl rfl⟩

/-- C3: `startMonitoring` invoked while the session is already running
warns and returns without touching the session state and without opening
a second browser (the state, including its single open browser handle, is
returned unchanged) — but the value returned is `undefined`
(TypeScript `return;`), so the controller faults on `result.error` and
the command surface answers with a structured error response carrying the
TypeError message, not with the non-fatal already-running result the
claim describes. -/
theorem start_while_running (phone pw smsCode : Option String) (env : StartEnv)
    (s : SessionState) (hrun : s.isRunning = true) :
    startMonitoring phone pw smsCode env s = (s, none) ∧
      controllerStart (startMonitoring phone pw smsCode env s).2 =
        { success := false, error := some typeErrorReadingError,
          requiresSms := none, message := none } := by
  have h1 : startMonitoring phone pw smsCode env s = (s, none) := by
    unfold startMonitoring
    rw [hrun]
    simp
  refine ⟨h1, ?_⟩
  rw [h1]
  rfl

theorem start_while_running_witness :
    runningState.isRunning = true ∧
    (startMonitoring none none none failedLoginEnv runningState =
        (runningState, none) ∧
      controllerStart (startMonitoring none none none failedLoginEnv
          runningState).2 =
        { success := false, error := some typeErrorReadingError,
          requiresSms := none, message := none }) :=
  ⟨rfl, start_while_running _ _ _ _ _ rfl⟩

/-- C4: for every poll tick in which the page URL contains none of the
messaging/profile context markers, the tick performs no extraction and
publishes nothing, even when a target correspondent name is present in
the document body text: the session state, including `seenKeys` and the
ledger, is returned unchanged. -/
theorem extraction_gate_skips_tick (now rand : Nat) (doc : Document)
    (s : SessionState)
    (hname : targetNames.any (fun nm => strIncludes doc.bodyText nm) = true)
    (hgate : isOnMessengerPage doc.url = false) :
    pollTick now rand doc s = s := by
  unfold pollTick
  rw [checkForNewMessages_gate_closed now rand doc s.dedup hgate]
  split
  · rfl
  · rfl

theorem extraction_gate_skips_tick_witness :
    targetNames.any (fun nm => strIncludes offContextDoc.bodyText nm) = true ∧
    isOnMessengerPage offContextDoc.url = false ∧
    pollTick 0 0 offContextDoc runningState = runningState :=
  ⟨by decide, by decide, extraction_gate_skips_tick _ _ _ _ (by decide) (by decide)⟩

/-- C5: the `seenKeys` reset invariant.  (i) `seenKeys` is empty
immediately after every `stopMonitoring`; (ii) the start path does not
touch `seenKeys`, so at the moment monitoring begins (immediately before
the first message check of the new session) it still holds the previous
value; (iii) every poll tick, and every run of `checkForNewMessages`
(the routine behind both the interval ticks and the initial check), only
extends `seenKeys` — keys are inserted, never removed; (iv) hence
immediately before the first poll tick of a start that follows a stop,
`seenKeys` is empty; the only reset is the one in `stopMonitoring`. -/
theorem seenKeys_reset_invariant :
    (∀ s : SessionState, (stopMonitoring s).dedup.seenKeys = []) ∧
    (∀ (env : StartEnv) (s : SessionState),
        (startRunningState env s).dedup.seenKeys = s.dedup.seenKeys) ∧
    (∀ (now rand : Nat) (doc : Document) (s : SessionState),
        s.dedup.seenKeys <+: (pollTick now rand doc s).dedup.seenKeys) ∧
    (∀ (now rand : Nat) (doc : Document) (st : DedupState),
        st.seenKeys <+: (checkForNewMessages now rand doc st).seenKeys) ∧
    (∀ (env : StartEnv) (s : SessionState),
        (startRunningState env (stopMonitoring s)).dedup.seenKeys = []) := by
  have hstop : ∀ s : SessionState, (stopMonitoring s).dedup.seenKeys = [] := by
    intro s
    unfold stopMonitoring cleanup
    by_cases hb : s.browserOpen <;> simp [hb]
  have hstart : ∀ (env : StartEnv) (s : SessionState),
      (startRunningState env s).dedup.seenKeys = s.dedup.seenKeys := by
    intro env s
    unfold startRunningState navigateToMessenger addMessageToLedger
    split <;> rfl
  refine ⟨hstop, hstart, ?_, checkForNewMessages_seen_grows, ?_⟩
  · intro now rand doc s
    unfold pollTick
    split
    · exact checkForNewMessages_seen_grows now rand doc s.dedup
    · exact List.prefix_refl _
  · intro env s
    rw [hstart, hstop]

/-- C6: `stopMonitoring` is idempotent and safe on every state: a second
call changes nothing, both calls produce the success response of the
controller (no error), and the status snapshot after either call reports
`running = false` and the browser handle closed. -/
theorem stop_idempotent (s : SessionState) :
    stopMonitoring (stopMonitoring s) = stopMonitoring s ∧
    getStatus (stopMonitoring (stopMonitoring s)) = getStatus (stopMonitoring s) ∧
    (getStatus (stopMonitoring s)).isRunning = false ∧
    (getStatus (stopMonitoring s)).browserOpen = false ∧
    (controllerStop s).2.success = true ∧
    (controllerStop (controllerStop s).1).2.success = true := by
  have hidem : stopMonitoring (stopMonitoring s) = stopMonitoring s := by
    unfold stopMonitoring cleanup
    by_cases hb : s.browserOpen <;> simp [hb]
  have hrun : (getStatus (stopMonitoring s)).isRunning = false := by
    unfold stopMonitoring cleanup getStatus
    by_cases hb : s.browserOpen <;> simp [hb]
  have hbrow : (getStatus (stopMonitoring s)).browserOpen = false := by
    unfold stopMonitoring cleanup getStatus
    by_cases hb : s.browserOpen <;> simp [hb]
  exact ⟨hidem, by rw [hidem], hrun, hbrow, rfl, rfl⟩

/-- C7: dedup key collision boundary.  Two messages from the same sender
whose texts agree on their first 100 characters derive equal dedup keys,
and consequently, in any run of the dedup loop from the session-start
state, at most one ledger entry with that key is ever forwarded — text
differences from character 100 onward never distinguish messages. -/
theorem dedup_key_collision (m1 m2 : ExtractedMessage)
    (hs : m1.sender = m2.sender)
    (ht : m1.text.take 100 = m2.text.take 100) :
    messageKey m1 = messageKey m2 ∧
      ∀ ms : List ExtractedMessage,
        (pubsForKey (messageKey m1)
            (processMessages (DedupState.mk [] []) ms).published).length ≤ 1 := by
  refine ⟨by rw [messageKey, messageKey, hs, ht], fun ms => ?_⟩
  have h := processMessages_pubsForKey (messageKey m1) ms (DedupState.mk [] [])
  rw [if_neg (List.not_mem_nil _)] at h
  rw [h]
  cases firstNewPub (messageKey m1) ms <;> simp [pubsForKey]

theorem dedup_key_collision_witness :
    (mkMsg "Рушан" (longText 'X')).sender = (mkMsg "Рушан" (longText 'Y')).sender ∧
    (mkMsg "Рушан" (longText 'X')).text.take 100 =
        (mkMsg "Рушан" (longText 'Y')).text.take 100 ∧
    (messageKey (mkMsg "Рушан" (longText 'X')) =
        messageKey (mkMsg "Рушан" (longText 'Y')) ∧
      (pubsForKey (messageKey (mkMsg "Рушан" (longText 'X')))
          (processMessages (DedupState.mk [] [])
            [mkMsg "Рушан" (longText 'X'), mkMsg "Рушан" (longText 'Y')]).published).length ≤ 1) :=
  ⟨rfl, by decide,
   (dedup_key_collision _ _ rfl (by decide)).1,
   (dedup_key_collision _ _ rfl (by decide)).2 _⟩

/-- C8: when a one-time code was supplied and, after typing and submitting
it once and re-checking, no inline error is shown, the login probe still
fails, and the code input is still present and still flagged as a code
field, the code phase of `login` terminates with the invalid-code error
message (which the start path and the controller surface as a failure),
and the code was typed and submitted exactly once — it is never silently
retried. -/
theorem invalid_code_fails (code : String) (env : SmsPhaseEnv)
    (h1 : env.codeInputPresent = true)
    (h2 : isSmsFieldFlag env.placeholder env.dataMarker = true)
    (h3 : env.errorAfterSubmit = none)
    (h4 : env.loggedInAfterSms = false)
    (h5 : env.codeInputStillPresent = true)
    (h6 : stillSmsFieldFlag env.placeholderStill env.dataMarkerStill = true) :
    loginSmsPhase (some code) env =
        (some { requiresSms := true, error := some invalidSmsCodeMsg }, 1) ∧
      (controllerStart
          (some { requiresSms := true, error := some invalidSmsCodeMsg })).success =
        false := by
  refine ⟨?_, rfl⟩
  unfold loginSmsPhase
  rw [h1, h2, h3, h4, h5, h6]
  simp

theorem invalid_code_fails_witness :
    invalidCodeEnv.codeInputPresent = true ∧
    isSmsFieldFlag invalidCodeEnv.placeholder invalidCodeEnv.dataMarker = true ∧
    invalidCodeEnv.errorAfterSubmit = none ∧
    invalidCodeEnv.loggedInAfterSms = false ∧
    invalidCodeEnv.codeInputStillPresent = true ∧
    stillSmsFieldFlag invalidCodeEnv.placeholderStill invalidCodeEnv.dataMarkerStill = true ∧
    (loginSmsPhase (some "1234") invalidCodeEnv =
        (some { requiresSms := true, error := some invalidSmsCodeMsg }, 1) ∧
      (controllerStart
          (some { requiresSms := true, error := some invalidSmsCodeMsg })).success =
        false) :=
  ⟨rfl, by decide, rfl, rfl, rfl, by decide,
   invalid_code_fails _ _ rfl (by decide) rfl rfl rfl (by decide)⟩

/-- C9: the manual-login wait loop consults only the authentication probe
and the elapsed time — its embedding takes no cancellation input, because
the source loop reads none — so whenever the probe never reports
authenticated during the window, the wait runs for the full 300 seconds
regardless of any concurrently requested stop, and only then fails.  The
claimed per-iteration cancellation-flag check does not exist in the
code. -/
theorem manual_wait_ignores_cancellation (f : Nat → Bool)
    (h : ((List.range 60).all (fun i => f (5 * i + 5) == false)) = true) :
    manualWait f = (false, 300) := by
  have haux : ∀ (fuel waited : Nat),
      (∀ j, j < fuel → f (waited + 5 * j + 5) = false) →
      manualWaitAux f fuel waited = (false, waited + 5 * fuel) := by
    intro fuel
    induction fuel with
    | zero =>
        intro waited _
        simp [manualWaitAux]
    | succ n ih =>
        intro waited hw
        have h0 : f (waited + 5) = false := by
          have h5 := hw 0 (Nat.succ_pos n)
          simpa using h5
        unfold manualWaitAux
        rw [h0]
        simp only [Bool.false_eq_true, if_false]
        rw [ih (waited + 5) ?_]
        · have harith : waited + 5 + 5 * n = waited + 5 * (n + 1) := by omega
          rw [harith]
        · intro j hj
          have hj1 := hw (j + 1) (Nat.succ_lt_succ hj)
          have he : waited + 5 * (j + 1) + 5 = waited + 5 + 5 * j + 5 := by omega
          rw [he] at hj1
          exact hj1
  have hform : ∀ j, j < 60 → f (0 + 5 * j + 5) = false := by
    intro j hj
    have hall := List.all_eq_true.mp h _ (List.mem_range.mpr hj)
    simp only [beq_iff_eq] at hall
    simpa using hall
  have hmain := haux 60 0 hform
  simpa [manualWait] using hmain

theorem manual_wait_ignores_cancellation_witness :
    ((List.range 60).all
        (fun i => (fun w => false : Nat → Bool) (5 * i + 5) == false)) = true ∧
    manualWait (fun w => false) = (false, 300) :=
  ⟨by decide, manual_wait_ignores_cancellation _ (by decide)⟩

/-- C10: on every automated credential login that reaches the
secret-entry step, after typing the secret into the located password
input the login procedure mutates the type attribute of the element from
password to text via `page.evaluate`, leaving the plaintext secret
visible in the page DOM: the field ends the step as a text field whose
value is the secret. -/
theorem password_field_made_visible (password : String) (field : InputField)
    (h : field.type = "password") :
    enterPassword password field = { type := "text", value := password } := rfl

theorem password_field_made_visible_witness :
    (InputField.mk "password" "").type = "password" ∧
    enterPassword "hunter2" (InputField.mk "password" "") =
      { type := "text", value := "hunter2" } :=
  ⟨rfl, password_field_made_visible _ _ rfl⟩
